import Mathlib

/-
  Verification development for the Vehicle-Movement playback engine
  (src/src/components/MapComponent.tsx).

  Shallow embedding conventions:
  * Geographic coordinates and wall-clock instants carried by the engine are
    rationals (timestamps in epoch milliseconds, as produced by
    `new Date(ts).getTime()`); the telemetry outputs of `haversineDistance`
    (which uses transcendental functions) live in the reals.
  * JavaScript division by zero produces NaN or an infinity; in the rational
    model `q / 0 = 0`.  Every theorem below whose conclusion could be
    affected by this convention is restricted to situations where the two
    semantics agree on the comparisons the code performs (this is noted at
    the theorem).
  * The React effect of lines 60-71 (which zeroes index, telemetry and the
    mutable refs whenever `playing` becomes false) runs synchronously after
    any transition that clears `playing`; it is modelled by applying
    `notPlayingReset` to the result of such a transition.
-/

set_option allowUnsafeReducibility true
attribute [local semireducible] Rat.add Rat.mul Rat.inv Rat.sub

namespace VehicleMovement

/-- A waypoint record (MapComponent.tsx lines 13-17).  `timestamp` is the
epoch-millisecond value of the ISO string, i.e. `new Date(s).getTime()`. -/
structure LocationPoint where
  latitude : ℚ
  longitude : ℚ
  timestamp : ℚ
deriving DecidableEq

instance : Inhabited LocationPoint := ⟨⟨0, 0, 0⟩⟩

/-- Degrees to radians, `toRad` of MapComponent.tsx line 28. -/
noncomputable def toRad (x : ℝ) : ℝ := x * Real.pi / 180

/-- JavaScript `Math.atan2 y x` (two-argument arctangent). -/
noncomputable def atan2 (y x : ℝ) : ℝ :=
  if 0 < x then Real.arctan (y / x)
  else if x < 0 then
    (if 0 ≤ y then Real.arctan (y / x) + Real.pi else Real.arctan (y / x) - Real.pi)
  else
    (if 0 < y then Real.pi / 2 else if y < 0 then -(Real.pi / 2) else 0)

/-- The intermediate value `a` of the haversine formula
(MapComponent.tsx lines 30-35): `dLat = toRad (lat2 - lat1)`,
`dLon = toRad (lon2 - lon1)`,
`a = sin (dLat/2) * sin (dLat/2) + cos (toRad lat1) * cos (toRad lat2) *
sin (dLon/2) * sin (dLon/2)`. -/
noncomputable def haversineA (lat1 lon1 lat2 lon2 : ℝ) : ℝ :=
  Real.sin (toRad (lat2 - lat1) / 2) * Real.sin (toRad (lat2 - lat1) / 2) +
    Real.cos (toRad lat1) * Real.cos (toRad lat2) *
      Real.sin (toRad (lon2 - lon1) / 2) * Real.sin (toRad (lon2 - lon1) / 2)

/-- `haversineDistance` of MapComponent.tsx lines 27-38: Earth radius
`R = 6371000`, `c = 2 * atan2 (sqrt a) (sqrt (1 - a))`, result `R * c`. -/
noncomputable def haversineDistance (lat1 lon1 lat2 lon2 : ℝ) : ℝ :=
  let R : ℝ := 6371000
  let a := haversineA lat1 lon1 lat2 lon2
  let c := 2 * atan2 (Real.sqrt a) (Real.sqrt (1 - a))
  R * c

/-- The mutable session state of `MapComponent` (lines 41-52): the React
state hooks `route`, `currentIndex`, `playing`, `elapsedTime`,
`distanceTravelled`, `speed` and the refs `startTimeRef`,
`lastTimestampRef` (stored waypoint timestamp, in ms), `lastPositionRef`
and `progressRef`. -/
structure PlaybackState where
  route : List LocationPoint
  currentIndex : ℕ
  playing : Bool
  elapsedTime : ℚ
  distanceTravelled : ℝ
  speed : ℝ
  startTime : Option ℚ
  lastTimestamp : Option ℚ
  lastPosition : Option (ℚ × ℚ)
  progress : ℚ

/-- State right after a route is loaded (initial hook values of lines
41-52 with the fetched route installed). -/
def initialState (route : List LocationPoint) : PlaybackState where
  route := route
  currentIndex := 0
  playing := false
  elapsedTime := 0
  distanceTravelled := 0
  speed := 0
  startTime := none
  lastTimestamp := none
  lastPosition := none
  progress := 0

/-- The body of the effect on `!playing` (MapComponent.tsx lines 60-71):
index, telemetry, progress and the sample refs are zeroed; the route and
`startTimeRef` are untouched. -/
def notPlayingReset (s : PlaybackState) : PlaybackState :=
  { s with currentIndex := 0, elapsedTime := 0, distanceTravelled := 0,
           speed := 0, progress := 0, lastTimestamp := none,
           lastPosition := none }

/-- The Play half of the toggle button (line 152: `setPlaying true`)
followed by the playing-effect of lines 116-119 which clears
`startTimeRef`. -/
def play (s : PlaybackState) : PlaybackState :=
  { s with playing := true, startTime := none }

/-- The Pause half of the toggle button (line 152: `setPlaying false`);
the effect of lines 60-71 then fires on the now-false `playing`. -/
def pause (s : PlaybackState) : PlaybackState :=
  notPlayingReset { s with playing := false }

/-- The Reset button (lines 155-165); its body coincides with
`setPlaying false` plus the zeroing that the lines 60-71 effect performs. -/
def reset (s : PlaybackState) : PlaybackState :=
  notPlayingReset { s with playing := false }

/-- `route[currentIndex]` (line 76). -/
def currentOf (s : PlaybackState) : LocationPoint :=
  s.route.getD s.currentIndex default

/-- Lines 84-85: `currentTime = Date.now(); if (!startTimeRef.current)
startTimeRef.current = currentTime`.  The JavaScript falsy test also
treats a stored value of `0` as unset. -/
def startTimeOf (s : PlaybackState) (now : ℚ) : ℚ :=
  match s.startTime with
  | none => now
  | some t => if t = 0 then now else t

/-- Line 86: `elapsed = (currentTime - startTimeRef.current) / 1000`. -/
def elapsedOf (s : PlaybackState) (now : ℚ) : ℚ :=
  (now - startTimeOf s now) / 1000

/-- Line 89: `timeDiff = (next.ts - current.ts) / 1000` in seconds. -/
def timeDiffOf (current next : LocationPoint) : ℚ :=
  (next.timestamp - current.timestamp) / 1000

/-- Lines 90-91: `segmentElapsed = elapsed - currentIndex * timeDiff`,
`progress = Math.min (segmentElapsed / timeDiff) 1`.  There is no guard on
`timeDiff ≤ 0` and no lower clamp at 0. -/
def progressOf (s : PlaybackState) (now : ℚ) (next : LocationPoint) : ℚ :=
  min ((elapsedOf s now - (s.currentIndex : ℚ) * timeDiffOf (currentOf s) next) /
        timeDiffOf (currentOf s) next) 1

/-- Lines 93-94 and 133-134: linear interpolation of latitude and
longitude independently. -/
def interpolate (current next : LocationPoint) (progress : ℚ) : ℚ × ℚ :=
  (current.latitude + (next.latitude - current.latitude) * progress,
   current.longitude + (next.longitude - current.longitude) * progress)

/-- The freshly interpolated position of lines 93-94. -/
def positionOf (s : PlaybackState) (now : ℚ) (next : LocationPoint) : ℚ × ℚ :=
  interpolate (currentOf s) next (progressOf s now next)

/-- Line 97: the distance delta between the last sampled position and the
new position (0 when there is no last sample and the branch is skipped). -/
noncomputable def distOf (s : PlaybackState) (now : ℚ) (next : LocationPoint) : ℝ :=
  match s.lastPosition with
  | some p => haversineDistance p.1 p.2 ((positionOf s now next).1 : ℝ)
      ((positionOf s now next).2 : ℝ)
  | none => 0

/-- Line 100: `secDiff = (currentTime - (lastTimestampRef ? parse :
currentTime)) / 1000`.  Note the stored ref holds the waypoint timestamp
of line 105, not a tick wall-clock instant. -/
def secDiffOf (s : PlaybackState) (now : ℚ) : ℚ :=
  (now - s.lastTimestamp.getD now) / 1000

/-- Lines 84-111 of `animate`, entered when playing with a next waypoint:
update elapsed time, progress, position sample, telemetry, and advance the
segment (re-anchoring `startTimeRef` to the tick instant) when the
computed progress reaches 1. -/
noncomputable def animateStep (s : PlaybackState) (now : ℚ)
    (next : LocationPoint) : PlaybackState :=
  let progress := progressOf s now next
  let s1 : PlaybackState :=
    { s with
      elapsedTime := elapsedOf s now,
      distanceTravelled :=
        match s.lastPosition with
        | some _ => s.distanceTravelled + distOf s now next
        | none => s.distanceTravelled,
      speed :=
        match s.lastPosition with
        | some _ =>
            if 0 < secDiffOf s now then distOf s now next / ((secDiffOf s now : ℚ) : ℝ)
            else s.speed
        | none => s.speed,
      startTime := some (startTimeOf s now),
      lastPosition := some (positionOf s now next),
      lastTimestamp := some (currentOf s).timestamp,
      progress := progress }
  if 1 ≤ progress then
    { s1 with
      currentIndex := min (s.currentIndex + 1) (s.route.length - 1),
      progress := 0,
      startTime := some now }
  else s1

/-- One invocation of `animate` (lines 73-114) observed together with the
lines 60-71 effect: a no-op unless playing on a nonempty route; when the
next waypoint is missing, `setPlaying false` (line 80) followed by the
effect zeroing; otherwise the step of lines 84-111. -/
noncomputable def animate (s : PlaybackState) (now : ℚ) : PlaybackState :=
  if s.playing = false ∨ s.route.length = 0 then s
  else
    match s.route[s.currentIndex + 1]? with
    | none => notPlayingReset { s with playing := false }
    | some next => animateStep s now next

/-! Projection lemmas for one playing, non-terminal tick. -/

theorem animateStep_route (s : PlaybackState) (now : ℚ) (next : LocationPoint) :
    (animateStep s now next).route = s.route := by
  simp only [animateStep]
  split <;> rfl

theorem animateStep_playing (s : PlaybackState) (now : ℚ) (next : LocationPoint) :
    (animateStep s now next).playing = s.playing := by
  simp only [animateStep]
  split <;> rfl

theorem animateStep_elapsedTime (s : PlaybackState) (now : ℚ) (next : LocationPoint) :
    (animateStep s now next).elapsedTime = elapsedOf s now := by
  simp only [animateStep]
  split <;> rfl

theorem animateStep_progress (s : PlaybackState) (now : ℚ) (next : LocationPoint) :
    (animateStep s now next).progress =
      if 1 ≤ progressOf s now next then 0 else progressOf s now next := by
  simp only [animateStep]
  split <;> simp_all

theorem animateStep_currentIndex (s : PlaybackState) (now : ℚ) (next : LocationPoint) :
    (animateStep s now next).currentIndex =
      if 1 ≤ progressOf s now next then min (s.currentIndex + 1) (s.route.length - 1)
      else s.currentIndex := by
  simp only [animateStep]
  split <;> simp_all

theorem animateStep_startTime (s : PlaybackState) (now : ℚ) (next : LocationPoint) :
    (animateStep s now next).startTime =
      if 1 ≤ progressOf s now next then some now else some (startTimeOf s now) := by
  simp only [animateStep]
  split <;> simp_all

theorem animateStep_lastPosition (s : PlaybackState) (now : ℚ) (next : LocationPoint) :
    (animateStep s now next).lastPosition = some (positionOf s now next) := by
  simp only [animateStep]
  split <;> rfl

theorem animateStep_lastTimestamp (s : PlaybackState) (now : ℚ) (next : LocationPoint) :
    (animateStep s now next).lastTimestamp = some (currentOf s).timestamp := by
  simp only [animateStep]
  split <;> rfl

theorem animateStep_distanceTravelled (s : PlaybackState) (now : ℚ) (next : LocationPoint) :
    (animateStep s now next).distanceTravelled =
      match s.lastPosition with
      | some _ => s.distanceTravelled + distOf s now next
      | none => s.distanceTravelled := by
  simp only [animateStep]
  split <;> rfl

theorem animateStep_speed (s : PlaybackState) (now : ℚ) (next : LocationPoint) :
    (animateStep s now next).speed =
      match s.lastPosition with
      | some _ =>
          if 0 < secDiffOf s now then distOf s now next / ((secDiffOf s now : ℚ) : ℝ)
          else s.speed
      | none => s.speed := by
  simp only [animateStep]
  split <;> rfl

/-! Case lemmas for a full tick. -/

theorem animate_of_stopped (s : PlaybackState) (now : ℚ)
    (h : s.playing = false ∨ s.route.length = 0) : animate s now = s := by
  simp only [animate, if_pos h]

theorem animate_of_terminal (s : PlaybackState) (now : ℚ)
    (h1 : ¬(s.playing = false ∨ s.route.length = 0))
    (h2 : s.route[s.currentIndex + 1]? = none) :
    animate s now = notPlayingReset { s with playing := false } := by
  simp only [animate, if_neg h1, h2]

theorem animate_of_next (s : PlaybackState) (now : ℚ) (next : LocationPoint)
    (h1 : ¬(s.playing = false ∨ s.route.length = 0))
    (h2 : s.route[s.currentIndex + 1]? = some next) :
    animate s now = animateStep s now next := by
  simp only [animate, if_neg h1, h2]

theorem not_stopped_of_playing_next (s : PlaybackState) (next : LocationPoint)
    (h1 : s.playing = true) (h2 : s.route[s.currentIndex + 1]? = some next) :
    ¬(s.playing = false ∨ s.route.length = 0) := by
  rintro (h | h)
  · rw [h1] at h
    exact absurd h (by simp)
  · rw [List.length_eq_zero] at h
    rw [h] at h2
    simp at h2

/-! Arithmetic facts about `atan2` and the haversine formula. -/

theorem arctan_nonneg_of_nonneg (t : ℝ) (h : 0 ≤ t) : 0 ≤ Real.arctan t := by
  have := Real.arctan_strictMono.monotone h
  rwa [Real.arctan_zero] at this

theorem atan2_nonneg (y x : ℝ) (hy : 0 ≤ y) : 0 ≤ atan2 y x := by
  unfold atan2
  rcases lt_trichotomy 0 x with hx | hx | hx
  · rw [if_pos hx]
    exact arctan_nonneg_of_nonneg (y / x) (div_nonneg hy hx.le)
  · rw [if_neg (by rw [hx]; exact lt_irrefl x), if_neg (by rw [← hx]; exact lt_irrefl 0)]
    rcases lt_or_eq_of_le hy with hy0 | hy0
    · rw [if_pos hy0]
      have hpi := Real.pi_pos
      linarith
    · rw [if_neg (by rw [← hy0]; exact lt_irrefl 0), if_neg (by rw [← hy0]; exact lt_irrefl 0)]
  · rw [if_neg (fun h => absurd (lt_trans h hx) (lt_irrefl 0)), if_pos hx, if_pos hy]
    have h := Real.neg_pi_div_two_lt_arctan (y / x)
    have hpi := Real.pi_pos
    linarith

theorem atan2_zero_one : atan2 0 1 = 0 := by
  unfold atan2
  rw [if_pos one_pos, zero_div, Real.arctan_zero]

theorem haversineA_symm (lat1 lon1 lat2 lon2 : ℝ) :
    haversineA lat1 lon1 lat2 lon2 = haversineA lat2 lon2 lat1 lon1 := by
  unfold haversineA toRad
  have e1 : (lat1 - lat2) * Real.pi / 180 / 2 = -((lat2 - lat1) * Real.pi / 180 / 2) := by
    ring
  have e2 : (lon1 - lon2) * Real.pi / 180 / 2 = -((lon2 - lon1) * Real.pi / 180 / 2) := by
    ring
  rw [e1, e2]
  simp only [Real.sin_neg]
  ring

theorem haversineA_self (lat lon : ℝ) : haversineA lat lon lat lon = 0 := by
  unfold haversineA toRad
  simp

theorem haversineDistance_nonneg (lat1 lon1 lat2 lon2 : ℝ) :
    0 ≤ haversineDistance lat1 lon1 lat2 lon2 := by
  have h := atan2_nonneg (Real.sqrt (haversineA lat1 lon1 lat2 lon2))
    (Real.sqrt (1 - haversineA lat1 lon1 lat2 lon2)) (Real.sqrt_nonneg _)
  simp only [haversineDistance]
  nlinarith

theorem haversineDistance_symm (lat1 lon1 lat2 lon2 : ℝ) :
    haversineDistance lat1 lon1 lat2 lon2 = haversineDistance lat2 lon2 lat1 lon1 := by
  simp only [haversineDistance]
  rw [haversineA_symm]

theorem haversineDistance_self (lat lon : ℝ) : haversineDistance lat lon lat lon = 0 := by
  simp only [haversineDistance, haversineA_self]
  rw [Real.sqrt_zero, sub_zero, Real.sqrt_one, atan2_zero_one]
  ring

theorem haversineA_zero_ninety : haversineA 0 0 0 90 = 1 / 2 := by
  unfold haversineA toRad
  have e : ((90 : ℝ) - 0) * Real.pi / 180 / 2 = Real.pi / 4 := by ring
  rw [e]
  have h2 : Real.sqrt 2 * Real.sqrt 2 = 2 := Real.mul_self_sqrt (by norm_num)
  simp [Real.sin_pi_div_four]
  nlinarith [h2]

theorem haversineDistance_zero_ninety :
    haversineDistance 0 0 0 90 = 6371000 * (Real.pi / 2) := by
  simp only [haversineDistance, haversineA_zero_ninety]
  have e : (1 : ℝ) - 1 / 2 = 1 / 2 := by norm_num
  rw [e]
  have hpos : 0 < Real.sqrt (1 / 2) := Real.sqrt_pos.mpr (by norm_num)
  unfold atan2
  rw [if_pos hpos, div_self (ne_of_gt hpos), Real.arctan_one]
  ring

theorem haversineDistance_zero_ninety_pos : 0 < haversineDistance 0 0 0 90 := by
  rw [haversineDistance_zero_ninety]
  have hpi := Real.pi_pos
  nlinarith

/-! Concrete routes and reachable traces (each state is obtained from a
loaded route by the commands and ticks shown in its definition). -/

def w00 : LocationPoint := ⟨0, 0, 0⟩

def w01 : LocationPoint := ⟨0, 0, 10000⟩

def w02 : LocationPoint := ⟨0, 0, 20000⟩

/-- Two waypoints, ten seconds apart. -/
def routeShort : List LocationPoint := [w00, w01]

/-- Three waypoints, ten-second segments. -/
def routeThree : List LocationPoint := [w00, w01, w02]

def wEq0 : LocationPoint := ⟨0, 0, 0⟩

def wEq1 : LocationPoint := ⟨0, 90, 1000⟩

/-- Equator waypoints 90 degrees of longitude apart, one second apart. -/
def routeEquator : List LocationPoint := [wEq0, wEq1]

def wDup0 : LocationPoint := ⟨0, 0, 5000⟩

def wDup1 : LocationPoint := ⟨1, 1, 5000⟩

/-- Two waypoints sharing one timestamp (a degenerate segment). -/
def routeDup : List LocationPoint := [wDup0, wDup1]

noncomputable def sShort1 : PlaybackState :=
  animate (play (initialState routeShort)) 1000000

/-- Mid-segment Playing state: progress 1/2, elapsed 5 s. -/
noncomputable def sShort2 : PlaybackState := animate sShort1 1005000

/-- The tick that advances to the last waypoint of `routeShort`. -/
noncomputable def sDone2 : PlaybackState := animate sShort1 1010000

/-- The route-completion tick of `routeShort`. -/
noncomputable def sDone3 : PlaybackState := animate sDone2 1010100

noncomputable def sThree1 : PlaybackState :=
  animate (play (initialState routeThree)) 1000000

noncomputable def sThree2 : PlaybackState := animate sThree1 1010000

/-- First tick of the second segment of `routeThree`. -/
noncomputable def sThree3 : PlaybackState := animate sThree2 1010100

noncomputable def sEq1 : PlaybackState :=
  animate (play (initialState routeEquator)) 1000000

noncomputable def sEq2 : PlaybackState := animate sEq1 1001000

noncomputable def sDup1 : PlaybackState :=
  animate (play (initialState routeDup)) 1000000

/-! ### Claim C1 -/

/-- Claim C1 is false on the code: in the Playing state reached by two
ticks on `routeShort` (elapsed 5 s, progress 1/2), issuing pause() zeroes
elapsed time and progress instead of freezing them (the lines 60-71 effect
fires as soon as `playing` becomes false). -/
theorem pause_not_freezing_cex :
    sShort2.playing = true ∧
    (pause sShort2).elapsedTime ≠ sShort2.elapsedTime ∧
    (pause sShort2).progress ≠ sShort2.progress := by
  decide

/-- Claim C1 (amended): after pause() is issued, the current segment
index, segment progress, elapsed time, distance travelled and speed are
all zeroed — exactly as an explicit reset — and only the route (and the
startTime ref, untouched by the effect) survive. -/
theorem pause_resets_all_telemetry (s : PlaybackState) :
    (pause s).playing = false ∧ (pause s).currentIndex = 0 ∧
    (pause s).progress = 0 ∧ (pause s).elapsedTime = 0 ∧
    (pause s).distanceTravelled = 0 ∧ (pause s).speed = 0 ∧
    (pause s).route = s.route ∧ (pause s).startTime = s.startTime :=
  ⟨rfl, rfl, rfl, rfl, rfl, rfl, rfl, rfl⟩

/-! ### Claim C2 -/

/-- Claim C2 is false on the code: for `routeShort` (N = 2), the tick
before completion leaves `currentSegmentIndex = N - 1 = 1` with
elapsed 10 s, but the completion tick resets the index to 0 (and zeroes
elapsed time) because the lines 60-71 effect fires on `playing := false`. -/
theorem completion_not_preserving_cex :
    sDone2.currentIndex = routeShort.length - 1 ∧ sDone2.elapsedTime = 10 ∧
    sDone3.playing = false ∧ sDone3.currentIndex ≠ routeShort.length - 1 ∧
    sDone3.elapsedTime = 0 := by
  decide

/-- Claim C2 (amended): on the route-completion tick (playing, no next
waypoint) the engine stops playing, but the not-playing effect immediately
zeroes the state: the final state has `currentSegmentIndex = 0` (not
N - 1) and zeroed telemetry; only the route is retained. -/
theorem completion_resets_state (s : PlaybackState) (now : ℚ)
    (h1 : s.playing = true) (h2 : s.route.length ≠ 0)
    (h3 : s.route[s.currentIndex + 1]? = none) :
    (animate s now).playing = false ∧ (animate s now).currentIndex = 0 ∧
    (animate s now).elapsedTime = 0 ∧ (animate s now).distanceTravelled = 0 ∧
    (animate s now).speed = 0 ∧ (animate s now).progress = 0 ∧
    (animate s now).route = s.route := by
  have hne : ¬(s.playing = false ∨ s.route.length = 0) := by
    rintro (h | h)
    · rw [h1] at h
      exact absurd h (by simp)
    · exact h2 h
  rw [animate_of_terminal s now hne h3]
  exact ⟨rfl, rfl, rfl, rfl, rfl, rfl, rfl⟩

/-- Witness for `completion_resets_state` at the completion tick of
`routeShort`. -/
theorem completion_resets_state_witness :
    (animate sDone2 1010100).playing = false ∧
    (animate sDone2 1010100).currentIndex = 0 ∧
    (animate sDone2 1010100).elapsedTime = 0 ∧
    (animate sDone2 1010100).distanceTravelled = 0 ∧
    (animate sDone2 1010100).speed = 0 ∧
    (animate sDone2 1010100).progress = 0 ∧
    (animate sDone2 1010100).route = sDone2.route :=
  completion_resets_state sDone2 1010100 (by decide) (by decide) (by decide)

/-! ### Claim C3 -/

/-- Claim C3 is false on the code: on the reachable state given by playing
`routeThree` for three ticks, segment progress is -99/100, outside [0, 1]
(the code clamps progress at 1 from above but never from below, and the
per-segment wall-clock origin reset of line 110 makes
`segmentElapsed = elapsed - currentIndex * timeDiff` negative after the
first advance). -/
theorem progress_negative_cex : sThree3.progress < 0 ∧ sThree3.playing = true := by
  decide

/-- Claim C3 (amended): segment progress is clamped above at 1 only: any
tick from a state whose progress is at most 1 leaves it at most 1 (it can
be negative), a tick that changes the segment index sets progress to 0,
and pause also zeroes progress without advancing the index. -/
theorem progress_upper_clamp (s : PlaybackState) (now : ℚ) (h : s.progress ≤ 1) :
    (animate s now).progress ≤ 1 ∧
    ((animate s now).currentIndex ≠ s.currentIndex → (animate s now).progress = 0) ∧
    (pause s).progress = 0 := by
  by_cases hc : s.playing = false ∨ s.route.length = 0
  · rw [animate_of_stopped s now hc]
    exact ⟨h, fun hi => absurd rfl hi, rfl⟩
  · cases h2 : s.route[s.currentIndex + 1]? with
    | none =>
        rw [animate_of_terminal s now hc h2]
        exact ⟨zero_le_one, fun hi => rfl, rfl⟩
    | some nxt =>
        rw [animate_of_next s now nxt hc h2, animateStep_progress,
          animateStep_currentIndex]
        by_cases hp : 1 ≤ progressOf s now nxt
        · rw [if_pos hp, if_pos hp]
          exact ⟨zero_le_one, fun hi => rfl, rfl⟩
        · rw [if_neg hp, if_neg hp]
          exact ⟨min_le_right _ 1, fun hi => absurd rfl hi, rfl⟩

/-- Witness for `progress_upper_clamp` on the third tick of `routeThree`. -/
theorem progress_upper_clamp_witness :
    (animate sThree2 1010100).progress ≤ 1 ∧
    ((animate sThree2 1010100).currentIndex ≠ sThree2.currentIndex →
      (animate sThree2 1010100).progress = 0) ∧
    (pause sThree2).progress = 0 :=
  progress_upper_clamp sThree2 1010100 (by decide)

/-! ### Claim C4 -/

/-- Claim C4 is false on the code: there is no duration guard, and for
`routeDup` (two waypoints with one shared timestamp) the first tick after
play() does not advance to the terminal state: the engine stays at segment
0, still playing.  (In the rational model the unguarded `0 / 0` is 0; in
JavaScript it is NaN; under both conventions the `progress >= 1` check of
line 107 fails, so the tick does not advance.) -/
theorem degenerate_no_advance_cex :
    sDup1.playing = true ∧ sDup1.currentIndex ≠ routeDup.length - 1 ∧
    sDup1.progress = 0 := by
  decide

/-- Claim C4 (amended): when the next waypoint shares the current
waypoint's timestamp, the first tick after play() (startTime unset, so
elapsed is 0 and the model's division-by-zero convention agrees with the
JavaScript NaN on the progress-at-least-1 test) leaves the segment index
unchanged and the engine playing, with progress 0 instead of snapping to
the next waypoint. -/
theorem degenerate_segment_first_tick_stalls (s : PlaybackState) (now : ℚ)
    (nxt : LocationPoint) (h1 : s.playing = true)
    (h2 : s.route[s.currentIndex + 1]? = some nxt)
    (h3 : nxt.timestamp = (currentOf s).timestamp) (h4 : s.startTime = none) :
    (animate s now).currentIndex = s.currentIndex ∧
    (animate s now).playing = true ∧ (animate s now).progress = 0 := by
  have hne := not_stopped_of_playing_next s nxt h1 h2
  rw [animate_of_next s now nxt hne h2]
  have htd : timeDiffOf (currentOf s) nxt = 0 := by
    unfold timeDiffOf
    rw [h3]
    simp
  have hpr : progressOf s now nxt = 0 := by
    unfold progressOf
    rw [htd]
    simp
  rw [animateStep_currentIndex, animateStep_playing, animateStep_progress, hpr]
  have hno : ¬(1 : ℚ) ≤ 0 := by norm_num
  rw [if_neg hno, if_neg hno]
  exact ⟨rfl, h1, rfl⟩

/-- Witness for `degenerate_segment_first_tick_stalls` on `routeDup`. -/
theorem degenerate_segment_first_tick_stalls_witness :
    (animate (play (initialState routeDup)) 1000000).currentIndex =
      (play (initialState routeDup)).currentIndex ∧
    (animate (play (initialState routeDup)) 1000000).playing = true ∧
    (animate (play (initialState routeDup)) 1000000).progress = 0 :=
  degenerate_segment_first_tick_stalls (play (initialState routeDup)) 1000000 wDup1
    (by decide) (by decide) (by decide) (by decide)

/-! ### Claim C6 -/

/-- Claim C6 is false on the code: on the third tick of `routeThree` (the
first tick of the second segment), `elapsedTime` is 1/10 s, not the
10.1 s of wall-clock time since playback started at 1000000 — line 110
re-anchors `startTimeRef` at every segment advance, so `elapsedTime` is
re-based at segment boundaries. -/
theorem elapsed_not_session_wide_cex :
    sThree3.playing = true ∧ sThree3.elapsedTime = 1 / 10 ∧
    sThree3.elapsedTime ≠ (1010100 - 1000000) / 1000 := by
  decide

/-- Claim C6 (amended): `elapsedTime` equals `(now - startTime) / 1000`
where the startTime origin is cleared by play() and re-anchored to the
tick instant whenever the segment index advances; it measures time since
the current segment's origin, not wall-clock time since playback started. -/
theorem elapsed_rebased_per_segment (s : PlaybackState) (now : ℚ)
    (nxt : LocationPoint) (t0 : ℚ) (h1 : s.playing = true)
    (h2 : s.route[s.currentIndex + 1]? = some nxt)
    (h3 : s.startTime = some t0) (h4 : t0 ≠ 0) :
    (animate s now).elapsedTime = (now - t0) / 1000 ∧
    ((animate s now).currentIndex ≠ s.currentIndex →
      (animate s now).startTime = some now) := by
  have hne := not_stopped_of_playing_next s nxt h1 h2
  rw [animate_of_next s now nxt hne h2]
  constructor
  · rw [animateStep_elapsedTime]
    simp [elapsedOf, startTimeOf, h3, h4]
  · rw [animateStep_currentIndex, animateStep_startTime]
    by_cases hp : 1 ≤ progressOf s now nxt
    · rw [if_pos hp, if_pos hp]
      exact fun hi => rfl
    · rw [if_neg hp, if_neg hp]
      exact fun hi => absurd rfl hi

/-- Witness for `elapsed_rebased_per_segment` on the third tick of
`routeThree`. -/
theorem elapsed_rebased_per_segment_witness :
    (animate sThree2 1010100).elapsedTime = (1010100 - 1010000) / 1000 ∧
    ((animate sThree2 1010100).currentIndex ≠ sThree2.currentIndex →
      (animate sThree2 1010100).startTime = some 1010100) :=
  elapsed_rebased_per_segment sThree2 1010100 w02 1010000 (by decide) (by decide)
    (by decide) (by decide)

/-! Specialisations of the telemetry projections by the last-sample state. -/

theorem distOf_some (s : PlaybackState) (now : ℚ) (next : LocationPoint)
    (p : ℚ × ℚ) (hp : s.lastPosition = some p) :
    distOf s now next = haversineDistance (p.1 : ℝ) (p.2 : ℝ)
      ((positionOf s now next).1 : ℝ) ((positionOf s now next).2 : ℝ) := by
  unfold distOf
  rw [hp]

theorem animateStep_distance_none (s : PlaybackState) (now : ℚ)
    (next : LocationPoint) (hp : s.lastPosition = none) :
    (animateStep s now next).distanceTravelled = s.distanceTravelled := by
  rw [animateStep_distanceTravelled, hp]

theorem animateStep_distance_some (s : PlaybackState) (now : ℚ)
    (next : LocationPoint) (p : ℚ × ℚ) (hp : s.lastPosition = some p) :
    (animateStep s now next).distanceTravelled =
      s.distanceTravelled + distOf s now next := by
  rw [animateStep_distanceTravelled, hp]

theorem animateStep_speed_some (s : PlaybackState) (now : ℚ)
    (next : LocationPoint) (p : ℚ × ℚ) (hp : s.lastPosition = some p) :
    (animateStep s now next).speed =
      if 0 < secDiffOf s now then distOf s now next / ((secDiffOf s now : ℚ) : ℝ)
      else s.speed := by
  rw [animateStep_speed, hp]

/-! Evaluation of the two-tick equator trace, including its real-valued
telemetry fields. -/

theorem sEq1_eq_step :
    sEq1 = animateStep (play (initialState routeEquator)) 1000000 wEq1 :=
  animate_of_next (play (initialState routeEquator)) 1000000 wEq1 (by decide) (by decide)

theorem sEq1_distance : sEq1.distanceTravelled = 0 := by
  rw [sEq1_eq_step,
    animateStep_distance_none (play (initialState routeEquator)) 1000000 wEq1 rfl]
  rfl

theorem sEq2_eq_step : sEq2 = animateStep sEq1 1001000 wEq1 :=
  animate_of_next sEq1 1001000 wEq1 (by decide) (by decide)

theorem sEq1_lastPosition : sEq1.lastPosition = some (0, 0) := by decide

theorem sEq1_position : positionOf sEq1 1001000 wEq1 = (0, 90) := by decide

theorem sEq2_distOf : distOf sEq1 1001000 wEq1 = haversineDistance 0 0 0 90 := by
  rw [distOf_some sEq1 1001000 wEq1 (0, 0) sEq1_lastPosition, sEq1_position]
  norm_num

theorem sEq2_distance : sEq2.distanceTravelled = haversineDistance 0 0 0 90 := by
  rw [sEq2_eq_step, animateStep_distance_some sEq1 1001000 wEq1 (0, 0) sEq1_lastPosition,
    sEq2_distOf, sEq1_distance, zero_add]

theorem sEq2_speed : sEq2.speed = haversineDistance 0 0 0 90 / 1001 := by
  rw [sEq2_eq_step, animateStep_speed_some sEq1 1001000 wEq1 (0, 0) sEq1_lastPosition]
  have hsd : secDiffOf sEq1 1001000 = 1001 := by decide
  rw [hsd, if_pos (by norm_num : (0 : ℚ) < 1001), sEq2_distOf]
  norm_num

/-! ### Claim C5 -/

/-- Claim C5 is false on the code as literally stated: the route-completion
tick is delivered while the session is still Playing, and it zeroes
`distanceTravelled` (from the strictly positive equator-route value down
to 0), so distance is not non-decreasing across every tick of a Playing
session. -/
theorem distance_decreases_at_completion_cex :
    sEq2.playing = true ∧
    (animate sEq2 1001100).distanceTravelled < sEq2.distanceTravelled := by
  constructor
  · decide
  · have ht : animate sEq2 1001100 = notPlayingReset { sEq2 with playing := false } :=
      animate_of_terminal sEq2 1001100 (by decide) (by decide)
    rw [ht]
    show (0 : ℝ) < sEq2.distanceTravelled
    rw [sEq2_distance]
    exact haversineDistance_zero_ninety_pos

/-- Claim C5 (amended): `distanceTravelled` is non-decreasing at every
tick that leaves the engine Playing (each such tick adds a non-negative
haversine delta or nothing); only the session-ending completion tick
breaks monotonicity by zeroing the telemetry. -/
theorem distance_monotone_while_playing (s : PlaybackState) (now : ℚ)
    (h1 : s.playing = true) (h2 : (animate s now).playing = true) :
    s.distanceTravelled ≤ (animate s now).distanceTravelled := by
  by_cases hc : s.playing = false ∨ s.route.length = 0
  · rw [animate_of_stopped s now hc]
  · cases hn : s.route[s.currentIndex + 1]? with
    | none =>
        exfalso
        rw [animate_of_terminal s now hc hn] at h2
        simp [notPlayingReset] at h2
    | some nxt =>
        rw [animate_of_next s now nxt hc hn]
        cases hp : s.lastPosition with
        | none => rw [animateStep_distance_none s now nxt hp]
        | some p =>
            rw [animateStep_distance_some s now nxt p hp, distOf_some s now nxt p hp]
            have h := haversineDistance_nonneg (p.1 : ℝ) (p.2 : ℝ)
              ((positionOf s now nxt).1 : ℝ) ((positionOf s now nxt).2 : ℝ)
            linarith

/-- Witness for `distance_monotone_while_playing` on the second equator
tick. -/
theorem distance_monotone_while_playing_witness :
    sEq1.distanceTravelled ≤ (animate sEq1 1001000).distanceTravelled :=
  distance_monotone_while_playing sEq1 1001000 (by decide) (by decide)

/-! ### Claim C7 -/

/-- Claim C7 is false on the code: on the second equator tick the distance
delta is `haversineDistance 0 0 0 90` and the last tick happened exactly
one wall-clock second earlier, yet the speed stored is the delta divided
by 1001 s: line 100 subtracts the waypoint timestamp stored by line 105
(0 ms) from the tick instant (1001000 ms), not the previous tick's
wall-clock instant (1000000 ms). -/
theorem speed_denominator_cex :
    sEq2.speed = haversineDistance 0 0 0 90 / 1001 ∧
    sEq2.speed ≠
      haversineDistance 0 0 0 90 / (((1001000 - 1000000 : ℚ) / 1000 : ℚ) : ℝ) := by
  refine ⟨sEq2_speed, ?_⟩
  rw [sEq2_speed]
  have e : (((1001000 - 1000000 : ℚ) / 1000 : ℚ) : ℝ) = 1 := by norm_num
  rw [e, div_one, haversineDistance_zero_ninety]
  intro h
  rw [div_eq_iff (by norm_num : (1001 : ℝ) ≠ 0)] at h
  have hpi := Real.pi_pos
  nlinarith

/-- Claim C7 (amended): on a tick with a last sample, speed is set to the
distance delta divided by `(now - previousWaypointTimestamp) / 1000` —
where the timestamp recorded at the previous tick is the current
waypoint's route timestamp, not that tick's wall-clock instant — when
this quantity is positive, and is retained unchanged otherwise. -/
theorem speed_uses_waypoint_timestamp (s : PlaybackState) (now : ℚ)
    (nxt : LocationPoint) (p : ℚ × ℚ) (ts : ℚ) (h1 : s.playing = true)
    (h2 : s.route[s.currentIndex + 1]? = some nxt)
    (hp : s.lastPosition = some p) (hts : s.lastTimestamp = some ts) :
    (animate s now).speed =
      if 0 < (now - ts) / 1000
      then haversineDistance (p.1 : ℝ) (p.2 : ℝ) ((positionOf s now nxt).1 : ℝ)
          ((positionOf s now nxt).2 : ℝ) / (((now - ts) / 1000 : ℚ) : ℝ)
      else s.speed := by
  have hne := not_stopped_of_playing_next s nxt h1 h2
  rw [animate_of_next s now nxt hne h2, animateStep_speed_some s now nxt p hp,
    distOf_some s now nxt p hp]
  have hsd : secDiffOf s now = (now - ts) / 1000 := by
    unfold secDiffOf
    rw [hts]
    rfl
  rw [hsd]

/-- Witness for `speed_uses_waypoint_timestamp` on the second equator
tick. -/
theorem speed_uses_waypoint_timestamp_witness :
    (animate sEq1 1001000).speed =
      if 0 < ((1001000 : ℚ) - 0) / 1000
      then haversineDistance (((0 : ℚ), (0 : ℚ)).1 : ℝ) (((0 : ℚ), (0 : ℚ)).2 : ℝ)
          ((positionOf sEq1 1001000 wEq1).1 : ℝ)
          ((positionOf sEq1 1001000 wEq1).2 : ℝ) /
          ((((1001000 : ℚ) - 0) / 1000 : ℚ) : ℝ)
      else sEq1.speed :=
  speed_uses_waypoint_timestamp sEq1 1001000 wEq1 (0, 0) 0 (by decide) (by decide)
    (by decide) (by decide)

/-! ### Claim C8 -/

/-- Claim C8 (confirmed): on a playing, non-terminal tick, when a last
sample exists the distance is incremented by exactly the haversine
distance (Earth radius 6371000 m, fixed in `haversineDistance`) from the
last sampled position to the newly interpolated position (which becomes
the new last sample); the first tick of a session, with no last sample,
adds no delta. -/
theorem distance_increment_haversine (s : PlaybackState) (now : ℚ)
    (nxt : LocationPoint) (h1 : s.playing = true)
    (h2 : s.route[s.currentIndex + 1]? = some nxt) :
    (s.lastPosition = none →
      (animate s now).distanceTravelled = s.distanceTravelled) ∧
    (∀ p : ℚ × ℚ, s.lastPosition = some p →
      (animate s now).lastPosition = some (positionOf s now nxt) ∧
      (animate s now).distanceTravelled =
        s.distanceTravelled + haversineDistance (p.1 : ℝ) (p.2 : ℝ)
          ((positionOf s now nxt).1 : ℝ) ((positionOf s now nxt).2 : ℝ)) := by
  have hne := not_stopped_of_playing_next s nxt h1 h2
  rw [animate_of_next s now nxt hne h2]
  constructor
  · intro hp
    rw [animateStep_distance_none s now nxt hp]
  · intro p hp
    exact ⟨animateStep_lastPosition s now nxt, by
      rw [animateStep_distance_some s now nxt p hp, distOf_some s now nxt p hp]⟩

/-- Witness for `distance_increment_haversine` on the second equator
tick. -/
theorem distance_increment_haversine_witness :
    (animate sEq1 1001000).lastPosition = some (positionOf sEq1 1001000 wEq1) ∧
    (animate sEq1 1001000).distanceTravelled =
      sEq1.distanceTravelled + haversineDistance (((0 : ℚ), (0 : ℚ)).1 : ℝ)
        (((0 : ℚ), (0 : ℚ)).2 : ℝ) ((positionOf sEq1 1001000 wEq1).1 : ℝ)
        ((positionOf sEq1 1001000 wEq1).2 : ℝ) :=
  (distance_increment_haversine sEq1 1001000 wEq1 (by decide) (by decide)).2
    (0, 0) (by decide)

/-! ### Claim C9 -/

/-- Claim C9 (confirmed): the interpolated position is linear (affine) in
degree space in each coordinate independently, progress 0 gives exactly
the current waypoint and progress 1 exactly the next waypoint. -/
theorem interpolate_linear_endpoints (c n : LocationPoint) :
    (∀ q : ℚ, interpolate c n q =
      ((1 - q) * c.latitude + q * n.latitude,
       (1 - q) * c.longitude + q * n.longitude)) ∧
    interpolate c n 0 = (c.latitude, c.longitude) ∧
    interpolate c n 1 = (n.latitude, n.longitude) := by
  refine ⟨fun q => ?_, ?_, ?_⟩ <;>
    simp only [interpolate, Prod.mk.injEq] <;> constructor <;> ring

/-! ### Claim C10 -/

/-- Claim C10 (confirmed): for all real coordinate pairs,
`haversineDistance` is non-negative, symmetric, and zero on identical
points. -/
theorem haversine_nonneg_symm_self (lat1 lon1 lat2 lon2 : ℝ) :
    0 ≤ haversineDistance lat1 lon1 lat2 lon2 ∧
    haversineDistance lat1 lon1 lat2 lon2 = haversineDistance lat2 lon2 lat1 lon1 ∧
    haversineDistance lat1 lon1 lat1 lon1 = 0 :=
  ⟨haversineDistance_nonneg lat1 lon1 lat2 lon2,
   haversineDistance_symm lat1 lon1 lat2 lon2, haversineDistance_self lat1 lon1⟩

end VehicleMovement
